import Mathlib

/-!
# Verification of the silicone database crunchers

This development embeds the `DatabaseCruncherSSPSpecificRelation` cruncher
(`src/silicone/database_crunchers/ssp_specific_relation.py`) and a model of the
quantile-rolling-windows cruncher exercised by
`tests/integration/crunchers/test_cruncher_quantile_rolling_windows.py`.

Data frames are modelled in long form: a list of rows, each carrying the
(model, scenario, region, variable, unit) labels, a time step and a rational
value.  Machine floats are modelled as exact rationals; `ValueError`,
`NotImplementedError` and assertion failures are modelled as an explicit
error type returned through `Except`.
-/

namespace Silicone

/-- One long-format data row of a `pyam.IamDataFrame`: the five standard
labels plus one (time, value) observation. -/
structure Row where
  model : String
  scenario : String
  region : String
  variable' : String
  unit : String
  time : Int
  value : ℚ
deriving DecidableEq, Inhabited, Repr

/-- A `pyam.IamDataFrame`: a time-column identity (for example `year`) and the
long-format rows. -/
structure IamDataFrame where
  timeCol : String
  rows : List Row
deriving DecidableEq, Inhabited, Repr

/-- First-occurrence deduplication relative to an accumulator of already seen
elements; mirrors the order `pandas.unique` and dict insertion preserve. -/
def uniqueFrom {α : Type} [DecidableEq α] (seen : List α) : List α → List α
  | [] => []
  | a :: l => if a ∈ seen then uniqueFrom seen l else a :: uniqueFrom (a :: seen) l

/-- First-occurrence deduplication, as performed by `pandas.unique` (used for
unit lists) and by iteration order of the interpolator dictionary. -/
def unique {α : Type} [DecidableEq α] (l : List α) : List α := uniqueFrom [] l

/-- The distinct time steps appearing in a data frame, in order of first
appearance (`set(df.data[df.time_col])` / dictionary key order). -/
def dfTimes (df : IamDataFrame) : List Int := unique (df.rows.map (·.time))

/-- Insertion sort on `Int`, used to model the sorted column order of
`df.timeseries().columns`. -/
def insertInt (a : Int) : List Int → List Int
  | [] => [a]
  | b :: l => if a ≤ b then a :: b :: l else b :: insertInt a l

/-- Sorts a list of time steps ascending, as `pandas` presents wide-format
columns. -/
def sortInts : List Int → List Int
  | [] => []
  | a :: l => insertInt a (sortInts l)

/-- The sorted distinct time steps of a data frame: the column list of
`df.timeseries()`. -/
def dfSortedTimes (df : IamDataFrame) : List Int := sortInts (dfTimes df)

/-- The deduplicated units recorded for a set of variables, in first-appearance
order; embeds `silicone.utils._get_unit_of_variable` applied to a variable
list. -/
def getUnitOfVariables (df : IamDataFrame) (vs : List String) : List String :=
  unique ((df.rows.filter (fun r => r.variable' ∈ vs)).map (·.unit))

/-- The deduplicated units recorded for a single variable, in first-appearance
order; embeds `silicone.utils._get_unit_of_variable` applied to one variable. -/
def getUnitOfVariable (df : IamDataFrame) (v : String) : List String :=
  getUnitOfVariables df [v]

/-- The sub-frame holding only the rows of the given variables
(`df.filter(variable=vs)`). -/
def filterVariables (df : IamDataFrame) (vs : List String) : IamDataFrame :=
  ⟨df.timeCol, df.rows.filter (fun r => r.variable' ∈ vs)⟩

/-- The first element of a list satisfying a decidable predicate, if any. -/
def firstMatch {α : Type} (p : α → Prop) [DecidablePred p] : List α → Option α
  | [] => none
  | a :: l => if p a then some a else firstMatch p l

/-- One paired observation fed to the quantile engine: the leader value `x`
and the follower value `y` of one (model, scenario, region) at one time
step. -/
structure Sample where
  x : ℚ
  y : ℚ
deriving DecidableEq, Inhabited, Repr

/-- The paired (leader, follower) samples of one time step: each leader row at
time `t` is matched with the follower row of the same (model, scenario,
region); unmatched leader rows (NaN cells of the wide frame) are dropped. -/
def samplesAt (df : IamDataFrame) (leader follower : String) (t : Int) : List Sample :=
  (df.rows.filter (fun r => r.variable' = leader ∧ r.time = t)).filterMap
    (fun rl =>
      ((firstMatch (fun r => r.variable' = follower ∧ r.time = t ∧
          r.model = rl.model ∧ r.scenario = rl.scenario ∧ r.region = rl.region) df.rows).map
        (fun rf => ⟨rl.value, rf.value⟩)))

/-- Inserts a sample into a list sorted by follower value. -/
def insertByY (s : Sample) : List Sample → List Sample
  | [] => [s]
  | t :: l => if s.y ≤ t.y then s :: t :: l else t :: insertByY s l

/-- Sorts samples by follower value, the first step of the weighted-quantile
computation. -/
def sortByY : List Sample → List Sample
  | [] => []
  | s :: l => insertByY s (sortByY l)

/-- Modelled from the spec: the distance-decay weighting kernel of the
weighted quantile engine (`silicone.stats.rolling_window_find_quantiles` is
not part of the sources).  A sample at distance `|x - c|` from the window
center `c` with decay length `d` gets weight `1 / (1 + ((x - c)/d)^2)`; this
kernel reproduces the 5/6 and 1/6 weights of the worked example in the
spec. -/
def kernelWeight (c d : ℚ) (s : Sample) : ℚ :=
  1 / (1 + ((s.x - c) / d) ^ 2)

/-- Modelled from the spec: the weighted cumulative positions of the sorted
samples, by the weighted midpoint rule.  Each sample `s` is paired with
`(acc + w/2) / total` where `acc` is the weight accumulated strictly before
`s` and `total` the total weight. -/
def midPairs (wf : Sample → ℚ) (total : ℚ) (acc : ℚ) : List Sample → List (ℚ × ℚ)
  | [] => []
  | s :: l => ((acc + wf s / 2) / total, s.y) :: midPairs wf total (acc + wf s) l

/-- Piecewise-linear interpolation through control points with flat (clamped)
extrapolation: inputs below the first abscissa give the first ordinate,
inputs above the last abscissa give the last ordinate.  This is both the
weighted-quantile selection rule over (cumulative position, follower value)
pairs and the `scipy.interp1d`-with-clamp interpolator of the spec. -/
def interpClamped : List (ℚ × ℚ) → ℚ → ℚ
  | [], _ => 0
  | [(_, y)], _ => y
  | (x0, y0) :: (x1, y1) :: rest, x =>
    if x ≤ x0 then y0
    else if x ≤ x1 then y0 + (y1 - y0) * ((x - x0) / (x1 - x0))
    else interpClamped ((x1, y1) :: rest) x

/-- Modelled from the spec: the weighted quantile estimate of the follower
values at window center `c` with decay length `d`, together with the
zero-total-weight diagnostic flag.  An empty window returns 0 and raises the
flag; otherwise the samples are sorted by follower value and the quantile is
read off the weighted cumulative midpoints by clamped linear
interpolation. -/
def quantileAt (samples : List Sample) (c d q : ℚ) : ℚ × Bool :=
  match sortByY samples with
  | [] => (0, true)
  | s :: l =>
    let wf := kernelWeight c d
    let total := ((s :: l).map wf).sum
    (interpClamped (midPairs wf total 0 (s :: l)) q, false)

/-- The smallest leader value of a sample list (0 for an empty list). -/
def sampleMinX : List Sample → ℚ
  | [] => 0
  | s :: l => (l.map (·.x)).foldl min s.x

/-- The largest leader value of a sample list (0 for an empty list). -/
def sampleMaxX : List Sample → ℚ
  | [] => 0
  | s :: l => (l.map (·.x)).foldl max s.x

/-- The smallest follower value of a sample list (0 for an empty list). -/
def sampleMinY : List Sample → ℚ
  | [] => 0
  | s :: l => (l.map (·.y)).foldl min s.y

/-- The largest follower value of a sample list (0 for an empty list). -/
def sampleMaxY : List Sample → ℚ
  | [] => 0
  | s :: l => (l.map (·.y)).foldl max s.y

/-- Modelled from the spec: the evenly spaced window-center grid paired with
the quantile value at each center.  `curvePts v c step n` lists the `n + 1`
points `c, c + step, ..., c + n*step` with their values. -/
def curvePts (v : ℚ → ℚ) (c step : ℚ) : ℕ → List (ℚ × ℚ)
  | 0 => [(c, v c)]
  | n + 1 => (c, v c) :: curvePts v (c + step) step n

/-- Modelled from the spec: the spacing of the window-center grid, the
observed leader range divided by the window count. -/
def windowStep (samples : List Sample) (nwin : ℕ) : ℚ :=
  (sampleMaxX samples - sampleMinX samples) / nwin

/-- Modelled from the spec: the shared decay length, half a window step
scaled by `decay_length_factor`; this reproduces the worked weights 5/6 and
1/6 of the spec. -/
def windowDecay (samples : List Sample) (nwin : ℕ) (fac : ℚ) : ℚ :=
  windowStep samples nwin / 2 * fac

/-- Modelled from the spec: the quantile curve of one time step
(`silicone.stats.rolling_window_find_quantiles` is not in the sources).  The
window centers span the observed leader range inclusive of both endpoints in
steps of `windowStep`, with decay length `windowDecay`.  A zero leader range
degenerates to a single center with decay length 1, per the zero-range edge
case of the spec. -/
def quantileCurve (samples : List Sample) (nwin : ℕ) (fac q : ℚ) : List (ℚ × ℚ) :=
  if sampleMinX samples = sampleMaxX samples then
    [(sampleMinX samples, (quantileAt samples (sampleMinX samples) 1 q).1)]
  else
    curvePts (fun c => (quantileAt samples c (windowDecay samples nwin fac) q).1)
      (sampleMinX samples) (windowStep samples nwin) nwin

/-- The errors raised by the crunchers: `NotImplementedError`, the
`ValueError`s and the assertion failure of the sources, with the values the
source interpolates into the message kept as payloads. -/
inductive CruncherError where
  | notImplemented
  | invalidQuantile (q : ℚ)
  | invalidNwindows (n : ℚ)
  | zeroDecayFactor
  | noData
  | noDataLeader (vs : List String)
  | noDataFollower (v : String)
  | timeColMismatch (c : String)
  | cannotInfill (vs : List String)
  | multipleLeadUnits
  | unitsMismatch (expected found : String)
  | missingTimepoints (crunched requested : List Int)
deriving DecidableEq, Repr

/-- Renders the messages of the validation errors whose claims quote literal
message text. -/
def renderError : CruncherError → String
  | .invalidQuantile q => "Invalid quantile (" ++ toString q ++ "), it must be in [0, 1]"
  | .invalidNwindows n => "Invalid nwindows (" ++ toString n ++ "), it must be an integer"
  | .notImplemented => "Having more than one `variable_leaders` is not yet implemented"
  | .zeroDecayFactor => "decay_length_factor must not be zero"
  | _ => ""

/-- Modelled from the spec: the default number of windows when unspecified, a
deterministic sample-count-scaling heuristic (`max 1 ⌊sqrt n⌋`); the spec
leaves the exact heuristic to the implementer. -/
def defaultNwindows (nSamples : ℕ) : ℕ := max 1 (Nat.sqrt nSamples)

/-- Modelled from the spec: the number of windows used for a time step with
`k` samples, either the validated explicit argument or the default
heuristic. -/
def nwindowsOf (nw : Option ℚ) (k : ℕ) : ℕ :=
  match nw with
  | some n => n.num.toNat
  | none => defaultNwindows k

/-- Modelled from the spec: the ratio-mode transform.  When `use_ratio` is
set the follower value is replaced by follower/leader, a zero leader making
the ratio 0 rather than NaN or infinity. -/
def ratioSamples (rm : Bool) (l : List Sample) : List Sample :=
  if rm then l.map (fun s => ⟨s.x, if s.x = 0 then 0 else s.y / s.x⟩) else l

/-- Whether a time step triggers the informational diagnostic: in ratio mode a
sample with leader value 0 (the 0/0 case), or a window with no samples at all
(zero total weight). -/
def diagAt (rm : Bool) (l : List Sample) : Prop :=
  (rm = true ∧ ∃ s ∈ l, s.x = 0) ∨ l = []

instance (rm : Bool) (l : List Sample) : Decidable (diagAt rm l) := by
  unfold diagAt; infer_instance

/-- Whether an explicitly supplied window count fails the integrality check
(`nwindows` may be a float only when it has no fractional part). -/
def nwNonInteger : Option ℚ → Bool
  | some n => n.den != 1
  | none => false

/-- The relationship returned by the quantile-rolling-windows builder: the
data the returned closure captures, including one clamped interpolator per
crunched time step and the time steps flagged for the informational
diagnostic. -/
structure QrwFiller where
  timeCol : String
  leaderUnit : String
  followerUnit : String
  follower : String
  leaders : List String
  ratioMode : Bool
  interps : List (Int × (ℚ → ℚ))
  diagTimes : List Int
deriving Inhabited

/-- The reference sub-database the quantile-rolling-windows builder works on:
the database restricted to the leader and follower variables. -/
def qrwUseDb (db : IamDataFrame) (follower : String) (leaders : List String) : IamDataFrame :=
  filterVariables db [leaders.headD "", follower]

/-- Modelled from the spec: the relationship object built by
`QuantileRollingWindows.derive_relationship` once all validation has passed.
For every time step of the filtered database the paired samples are taken,
ratio-transformed when requested, and turned into a clamped interpolator over
the quantile curve. -/
def qrwBuild (db : IamDataFrame) (follower : String) (leaders : List String)
    (q : ℚ) (nw : Option ℚ) (fac : ℚ) (rm : Bool) : QrwFiller :=
  let use := qrwUseDb db follower leaders
  let lead := leaders.headD ""
  ⟨db.timeCol,
   (getUnitOfVariables use leaders).headD "",
   (getUnitOfVariable use follower).headD "",
   follower, leaders, rm,
   (dfTimes use).map (fun t =>
     let raw := samplesAt use lead follower t
     let s := ratioSamples rm raw
     (t, interpClamped (quantileCurve s (nwindowsOf nw raw.length) fac q))),
   (dfTimes use).filter (fun t => decide (diagAt rm (samplesAt use lead follower t)))⟩

/-- Modelled from the spec: `QuantileRollingWindows.derive_relationship`.  The
builder validates, in order, the leader count, the quantile, the window
count, the decay factor, the non-emptiness of the filtered database and the
recorded units, then returns the relationship closure. -/
def qrwDerive (db : IamDataFrame) (follower : String) (leaders : List String)
    (q : ℚ) (nw : Option ℚ) (fac : ℚ) (rm : Bool) : Except CruncherError QrwFiller :=
  if leaders.length ≠ 1 then .error .notImplemented
  else if q < 0 ∨ 1 < q then .error (.invalidQuantile q)
  else if nwNonInteger nw then .error (.invalidNwindows (nw.getD 0))
  else if fac = 0 then .error .zeroDecayFactor
  else if (qrwUseDb db follower leaders).rows = [] then .error .noData
  else if getUnitOfVariables (qrwUseDb db follower leaders) leaders = [] then
    .error (.noDataLeader leaders)
  else if getUnitOfVariable (qrwUseDb db follower leaders) follower = [] then
    .error (.noDataFollower follower)
  else .ok (qrwBuild db follower leaders q nw fac rm)

/-- Modelled from the spec: derivation with the default quantile (0.5), the
default window heuristic, the default decay factor (1) and ratio mode off. -/
def qrwDeriveDefaults (db : IamDataFrame) (follower : String) (leaders : List String) :
    Except CruncherError QrwFiller :=
  qrwDerive db follower leaders (1/2) none 1 false

/-- Looks up the interpolator stored for a time step in an interpolator
dictionary (the identically-zero function when the time step was never
crunched; the fillers validate presence before any lookup). -/
def lookupInterp : List (Int × (ℚ → ℚ)) → Int → ℚ → ℚ
  | [], _ => fun _ => 0
  | p :: l, t => if p.1 = t then p.2 else lookupInterp l t

/-- The interpolator a quantile-rolling-windows relationship stores for a
time step. -/
def interpOf (f : QrwFiller) (t : Int) : ℚ → ℚ :=
  lookupInterp f.interps t

/-- The value the quantile-rolling-windows filler writes for one leader value:
the interpolator output, rescaled by the leader value in ratio mode. -/
def qrwApply (f : QrwFiller) (t : Int) (x : ℚ) : ℚ :=
  let v := interpOf f t x
  if f.ratioMode then v * x else v

/-- The data frame written by the quantile-rolling-windows filler: the leader
rows of the input with the interpolated value, the follower variable name and
the recorded follower unit. -/
def qrwFillOut (f : QrwFiller) (df : IamDataFrame) : IamDataFrame :=
  ⟨df.timeCol,
   (filterVariables df f.leaders).rows.map (fun r =>
     { r with
       variable' := f.follower
       unit := f.followerUnit
       value := qrwApply f r.time r.value })⟩

/-- The time steps for which the filler emits the informational diagnostic:
the requested time steps flagged at build time, each at most once. -/
def qrwDiags (f : QrwFiller) (df : IamDataFrame) : List Int :=
  (dfTimes df).filter (fun t => decide (t ∈ f.diagTimes))

/-- Modelled from the spec: the filler closure returned by
`QuantileRollingWindows.derive_relationship`.  It validates the time-column
identity, the leader unit of the input and the presence of every requested
time step, then returns the filled frame together with the diagnostic
record. -/
def qrwFill (f : QrwFiller) (df : IamDataFrame) : Except CruncherError (IamDataFrame × List Int) :=
  if df.timeCol ≠ f.timeCol then .error (.timeColMismatch f.timeCol)
  else if getUnitOfVariables df f.leaders = [] then .error (.cannotInfill f.leaders)
  else if (getUnitOfVariables df f.leaders).length ≠ 1 then .error .multipleLeadUnits
  else if (getUnitOfVariables df f.leaders).headD "" ≠ f.leaderUnit then
    .error (.unitsMismatch f.leaderUnit ((getUnitOfVariables df f.leaders).headD ""))
  else if ∃ t ∈ dfTimes df, t ∉ f.interps.map Prod.fst then
    .error (.missingTimepoints (f.interps.map Prod.fst) (dfSortedTimes df))
  else .ok (qrwFillOut f df, qrwDiags f df)

/-- Inserts a control point into a list sorted by abscissa. -/
def insertByFst (p : ℚ × ℚ) : List (ℚ × ℚ) → List (ℚ × ℚ)
  | [] => [p]
  | p0 :: l => if p.1 ≤ p0.1 then p :: p0 :: l else p0 :: insertByFst p l

/-- Sorts control points by abscissa. -/
def sortByFst : List (ℚ × ℚ) → List (ℚ × ℚ)
  | [] => []
  | p :: l => insertByFst p (sortByFst l)

/-- The arithmetic mean of a list of rationals (0 for an empty list). -/
def listMean (l : List ℚ) : ℚ := l.sum / l.length

/-- Groups (leader, follower) pairs by leader value, averaging the follower
values of repeated leader values: the class docstring of
`DatabaseCruncherSSPSpecificRelation` states that mean values are used for
repeated leader values. -/
def meanPairs (ps : List (ℚ × ℚ)) : List (ℚ × ℚ) :=
  (unique (ps.map Prod.fst)).map
    (fun x => (x, listMean ((ps.filter (fun p => p.1 = x)).map Prod.snd)))

/-- Modelled from the spec: `silicone.utils.make_interpolator` (not in the
sources).  Per the class docstring, each time step gets a linear interpolator
through the mean-aggregated (leader, follower) pairs that returns the
follower values at the extreme leader values for inputs beyond the observed
range. -/
def makeInterpolator (follower lead : String) (use_db : IamDataFrame) :
    List (Int × (ℚ → ℚ)) :=
  (dfTimes use_db).map (fun t =>
    (t, interpClamped (sortByFst (meanPairs
      ((samplesAt use_db lead follower t).map (fun s => (s.x, s.y)))))))

/-- The state captured by the closure `filler` returned by
`DatabaseCruncherSSPSpecificRelation.derive_relationship`: the time column of
the crunched database, the first leader unit, the follower unit list, the
variable names and the per-time-step interpolators. -/
structure SspFiller where
  timeCol : String
  leaderUnit : String
  followerUnits : List String
  follower : String
  leaders : List String
  interps : List (Int × (ℚ → ℚ))
deriving Inhabited

/-- The filtered database `use_db` of
`DatabaseCruncherSSPSpecificRelation.derive_relationship`: the stored
database restricted to the accepted scenarios and to the leader and follower
variables. -/
def sspUseDb (db : IamDataFrame) (variable_follower : String)
    (variable_leaders : List String) (scenOk : String → Bool) : IamDataFrame :=
  ⟨db.timeCol,
   db.rows.filter (fun r => decide (scenOk r.scenario = true ∧
     r.variable' ∈ [variable_leaders.headD "", variable_follower]))⟩

/-- Embeds `DatabaseCruncherSSPSpecificRelation.derive_relationship`: rejects
more than one leader variable, filters the database, rejects an empty result
and missing units, records the first leader unit and builds the per-time-step
interpolators captured by the returned filler. -/
def derive_relationship (db : IamDataFrame) (variable_follower : String)
    (variable_leaders : List String) (scenOk : String → Bool) :
    Except CruncherError SspFiller :=
  if variable_leaders.length ≠ 1 then .error .notImplemented
  else if (sspUseDb db variable_follower variable_leaders scenOk).rows = [] then
    .error .noData
  else if getUnitOfVariables (sspUseDb db variable_follower variable_leaders scenOk)
      variable_leaders = [] then
    .error (.noDataLeader variable_leaders)
  else if getUnitOfVariable (sspUseDb db variable_follower variable_leaders scenOk)
      variable_follower = [] then
    .error (.noDataFollower variable_follower)
  else .ok ⟨(sspUseDb db variable_follower variable_leaders scenOk).timeCol,
    (getUnitOfVariables (sspUseDb db variable_follower variable_leaders scenOk)
      variable_leaders).headD "",
    getUnitOfVariable (sspUseDb db variable_follower variable_leaders scenOk)
      variable_follower,
    variable_follower, variable_leaders,
    makeInterpolator variable_follower (variable_leaders.headD "")
      (sspUseDb db variable_follower variable_leaders scenOk)⟩

/-- The output frame written by the SSP filler when all validation passes: the
leader rows of the input, each value replaced by the interpolator output for
its time step, the variable renamed to the follower and the unit set to the
first recorded follower unit. -/
def sspFillOut (f : SspFiller) (in_iamdf : IamDataFrame) : IamDataFrame :=
  ⟨in_iamdf.timeCol,
   (filterVariables in_iamdf f.leaders).rows.map (fun r =>
     { r with
       variable' := f.follower
       unit := f.followerUnits.headD ""
       value := lookupInterp f.interps r.time r.value })⟩

/-- Embeds the closure `filler` of
`DatabaseCruncherSSPSpecificRelation.derive_relationship`: checks the time
column, the presence and uniqueness of the lead-variable unit, the unit match
with the crunched database and the presence of every requested time step
among the crunched interpolators, then returns the filled frame. -/
def filler (f : SspFiller) (in_iamdf : IamDataFrame) : Except CruncherError IamDataFrame :=
  if in_iamdf.timeCol ≠ f.timeCol then .error (.timeColMismatch f.timeCol)
  else if getUnitOfVariables in_iamdf f.leaders = [] then .error (.cannotInfill f.leaders)
  else if (getUnitOfVariables in_iamdf f.leaders).length ≠ 1 then .error .multipleLeadUnits
  else if (getUnitOfVariables in_iamdf f.leaders).headD "" ≠ f.leaderUnit then
    .error (.unitsMismatch f.leaderUnit ((getUnitOfVariables in_iamdf f.leaders).headD ""))
  else if ∃ t ∈ dfTimes in_iamdf, t ∉ f.interps.map Prod.fst then
    .error (.missingTimepoints (f.interps.map Prod.fst) (dfSortedTimes in_iamdf))
  else .ok (sspFillOut f in_iamdf)

/-- The SSP filler with the frames it touches threaded explicitly: the result
together with the state of the stored reference database and of the input
frame after the call.  The only in-place pandas operations of the source
(`output_ts[time] = ...` and `output_ts.reset_index(inplace=True)`) act on
`output_ts`, a frame freshly created from `lead_var.timeseries()`, so both
threaded frames pass through every branch unchanged. -/
def fillerRun (f : SspFiller) (storedDb in_iamdf : IamDataFrame) :
    Except CruncherError IamDataFrame × IamDataFrame × IamDataFrame :=
  if in_iamdf.timeCol ≠ f.timeCol then
    (.error (.timeColMismatch f.timeCol), storedDb, in_iamdf)
  else if getUnitOfVariables in_iamdf f.leaders = [] then
    (.error (.cannotInfill f.leaders), storedDb, in_iamdf)
  else if (getUnitOfVariables in_iamdf f.leaders).length ≠ 1 then
    (.error .multipleLeadUnits, storedDb, in_iamdf)
  else if (getUnitOfVariables in_iamdf f.leaders).headD "" ≠ f.leaderUnit then
    (.error (.unitsMismatch f.leaderUnit ((getUnitOfVariables in_iamdf f.leaders).headD "")),
     storedDb, in_iamdf)
  else if ∃ t ∈ dfTimes in_iamdf, t ∉ f.interps.map Prod.fst then
    (.error (.missingTimepoints (f.interps.map Prod.fst) (dfSortedTimes in_iamdf)),
     storedDb, in_iamdf)
  else (.ok (sspFillOut f in_iamdf), storedDb, in_iamdf)

/-- The `simple_df` fixture of the quantile-rolling-windows test suite: two
scenarios of `model_c` with leader `Emissions|CH4` values 0 and 1 at 2010 and
identical values at 2030 and 2050, and follower `Emissions|CO2` values 0 and
1 at 2010. -/
def simpleDf : IamDataFrame :=
  ⟨"year",
   [⟨"model_c", "scen_a", "World", "Emissions|CO2", "Gt C/yr", 2010, 0⟩,
    ⟨"model_c", "scen_a", "World", "Emissions|CO2", "Gt C/yr", 2030, 1000⟩,
    ⟨"model_c", "scen_a", "World", "Emissions|CO2", "Gt C/yr", 2050, 5000⟩,
    ⟨"model_c", "scen_b", "World", "Emissions|CO2", "Gt C/yr", 2010, 1⟩,
    ⟨"model_c", "scen_b", "World", "Emissions|CO2", "Gt C/yr", 2030, 1000⟩,
    ⟨"model_c", "scen_b", "World", "Emissions|CO2", "Gt C/yr", 2050, 5000⟩,
    ⟨"model_c", "scen_a", "World", "Emissions|CH4", "Mt CH4/yr", 2010, 0⟩,
    ⟨"model_c", "scen_a", "World", "Emissions|CH4", "Mt CH4/yr", 2030, 300⟩,
    ⟨"model_c", "scen_a", "World", "Emissions|CH4", "Mt CH4/yr", 2050, 500⟩,
    ⟨"model_c", "scen_b", "World", "Emissions|CH4", "Mt CH4/yr", 2010, 1⟩,
    ⟨"model_c", "scen_b", "World", "Emissions|CH4", "Mt CH4/yr", 2030, 300⟩,
    ⟨"model_c", "scen_b", "World", "Emissions|CH4", "Mt CH4/yr", 2050, 500⟩]⟩

/-- Reads the value of the (unique) row of a model and scenario at a time
step, mirroring `returned.filter(scenario=..., year=...)["value"].iloc[0]`. -/
def lookupValue (df : IamDataFrame) (m s : String) (t : Int) : ℚ :=
  ((firstMatch (fun r => r.model = m ∧ r.scenario = s ∧ r.time = t) df.rows).map
    (·.value)).getD 0

/-- The relationship the quantile-rolling-windows model derives on
`simple_df` at quantile 0.58 with one window, as in the first part of
`test_relationship_usage`. -/
def simpleFiller : QrwFiller :=
  (qrwDerive simpleDf "Emissions|CO2" ["Emissions|CH4"] (29/50) (some 1) 1
    false).toOption.getD default

/-- The result of filling `simple_df` with the quantile-0.58 relationship. -/
def simpleFilled : IamDataFrame × List Int :=
  (qrwFill simpleFiller simpleDf).toOption.getD default

/-- The ratio-mode relationship derived on `simple_df` at quantile 0.58 with
one window, as in the `use_ratio=True` branch of `test_relationship_usage`. -/
def simpleRatioFiller : QrwFiller :=
  (qrwDerive simpleDf "Emissions|CO2" ["Emissions|CH4"] (29/50) (some 1) 1
    true).toOption.getD default

/-- The result of filling `simple_df` with the ratio-mode relationship. -/
def simpleRatioFilled : IamDataFrame × List Int :=
  (qrwFill simpleRatioFiller simpleDf).toOption.getD default

/-- A two-scenario reference database holding a single variable: the
round-trip dataset for deriving the relationship of `Emissions|CO2` to
itself. -/
def rtDb : IamDataFrame :=
  ⟨"year",
   [⟨"model_a", "scen_a", "World", "Emissions|CO2", "Gt C/yr", 2010, 0⟩,
    ⟨"model_a", "scen_b", "World", "Emissions|CO2", "Gt C/yr", 2010, 1⟩]⟩

/-- The relationship derived on `rtDb` from `Emissions|CO2` to itself with
all defaults. -/
def rtFiller : QrwFiller :=
  (qrwDeriveDefaults rtDb "Emissions|CO2" ["Emissions|CO2"]).toOption.getD default

/-- The round-trip fill of `rtDb` with its own leader-equals-follower
relationship. -/
def rtFilled : IamDataFrame × List Int :=
  (qrwFill rtFiller rtDb).toOption.getD default

lemma simpleTimeCol : simpleDf.timeCol = "year" := rfl

lemma simpleUse : qrwUseDb simpleDf "Emissions|CO2" ["Emissions|CH4"] = simpleDf := by
  simp [qrwUseDb, filterVariables, simpleDf]

lemma simpleTimes : dfTimes simpleDf = [2010, 2030, 2050] := by
  simp [dfTimes, unique, uniqueFrom, simpleDf]

lemma simpleRowsNe : (simpleDf.rows = []) = False := by
  simp [simpleDf]

lemma simpleLeaderUnits : getUnitOfVariables simpleDf ["Emissions|CH4"] = ["Mt CH4/yr"] := by
  simp [getUnitOfVariables, unique, uniqueFrom, simpleDf, List.filter]

lemma simpleFollowerUnits : getUnitOfVariable simpleDf "Emissions|CO2" = ["Gt C/yr"] := by
  simp [getUnitOfVariable, getUnitOfVariables, unique, uniqueFrom, simpleDf, List.filter]

lemma simpleSamples2010 :
    samplesAt simpleDf "Emissions|CH4" "Emissions|CO2" 2010 = [⟨0, 0⟩, ⟨1, 1⟩] := by
  simp [samplesAt, simpleDf, firstMatch, List.filterMap]

lemma simpleSamples2030 :
    samplesAt simpleDf "Emissions|CH4" "Emissions|CO2" 2030 = [⟨300, 1000⟩, ⟨300, 1000⟩] := by
  simp [samplesAt, simpleDf, firstMatch, List.filterMap]

lemma simpleSamples2050 :
    samplesAt simpleDf "Emissions|CH4" "Emissions|CO2" 2050 = [⟨500, 5000⟩, ⟨500, 5000⟩] := by
  simp [samplesAt, simpleDf, firstMatch, List.filterMap]

lemma simpleCurve2010 :
    quantileCurve [⟨0, 0⟩, ⟨1, 1⟩] 1 1 (29/50) = [(0, 49/150), (1, 149/150)] := by
  norm_num [quantileCurve, quantileAt, sortByY, insertByY, kernelWeight, midPairs,
    interpClamped, curvePts, sampleMinX, sampleMaxX, windowStep, windowDecay]

lemma simpleCurve2030 :
    quantileCurve [⟨300, 1000⟩, ⟨300, 1000⟩] 1 1 (29/50) = [(300, 1000)] := by
  norm_num [quantileCurve, quantileAt, sortByY, insertByY, kernelWeight, midPairs,
    interpClamped, curvePts, sampleMinX, sampleMaxX, windowStep, windowDecay]

lemma simpleCurve2050 :
    quantileCurve [⟨500, 5000⟩, ⟨500, 5000⟩] 1 1 (29/50) = [(500, 5000)] := by
  norm_num [quantileCurve, quantileAt, sortByY, insertByY, kernelWeight, midPairs,
    interpClamped, curvePts, sampleMinX, sampleMaxX, windowStep, windowDecay]

lemma simpleDerive :
    qrwDerive simpleDf "Emissions|CO2" ["Emissions|CH4"] (29/50) (some 1) 1 false =
      .ok ⟨"year", "Mt CH4/yr", "Gt C/yr", "Emissions|CO2", ["Emissions|CH4"], false,
        [(2010, interpClamped [(0, 49/150), (1, 149/150)]),
         (2030, interpClamped [(300, 1000)]),
         (2050, interpClamped [(500, 5000)])], []⟩ := by
  norm_num [qrwDerive, qrwBuild, simpleUse, simpleTimes, simpleRowsNe, simpleLeaderUnits,
    simpleFollowerUnits, simpleSamples2010, simpleSamples2030, simpleSamples2050,
    nwNonInteger, nwindowsOf, ratioSamples, simpleCurve2010, simpleCurve2030,
    simpleCurve2050, diagAt, List.cons_ne_nil, simpleTimeCol]

lemma simpleFiller_eq :
    simpleFiller = ⟨"year", "Mt CH4/yr", "Gt C/yr", "Emissions|CO2", ["Emissions|CH4"], false,
      [(2010, interpClamped [(0, 49/150), (1, 149/150)]),
       (2030, interpClamped [(300, 1000)]),
       (2050, interpClamped [(500, 5000)])], []⟩ := by
  simp [simpleFiller, simpleDerive, Except.toOption, Option.getD]

lemma simpleLead :
    filterVariables simpleDf ["Emissions|CH4"] =
      ⟨"year",
       [⟨"model_c", "scen_a", "World", "Emissions|CH4", "Mt CH4/yr", 2010, 0⟩,
        ⟨"model_c", "scen_a", "World", "Emissions|CH4", "Mt CH4/yr", 2030, 300⟩,
        ⟨"model_c", "scen_a", "World", "Emissions|CH4", "Mt CH4/yr", 2050, 500⟩,
        ⟨"model_c", "scen_b", "World", "Emissions|CH4", "Mt CH4/yr", 2010, 1⟩,
        ⟨"model_c", "scen_b", "World", "Emissions|CH4", "Mt CH4/yr", 2030, 300⟩,
        ⟨"model_c", "scen_b", "World", "Emissions|CH4", "Mt CH4/yr", 2050, 500⟩]⟩ := by
  simp [filterVariables, simpleDf, List.filter]

lemma simpleFill :
    qrwFill simpleFiller simpleDf =
      .ok (⟨"year",
        [⟨"model_c", "scen_a", "World", "Emissions|CO2", "Gt C/yr", 2010, 49/150⟩,
         ⟨"model_c", "scen_a", "World", "Emissions|CO2", "Gt C/yr", 2030, 1000⟩,
         ⟨"model_c", "scen_a", "World", "Emissions|CO2", "Gt C/yr", 2050, 5000⟩,
         ⟨"model_c", "scen_b", "World", "Emissions|CO2", "Gt C/yr", 2010, 149/150⟩,
         ⟨"model_c", "scen_b", "World", "Emissions|CO2", "Gt C/yr", 2030, 1000⟩,
         ⟨"model_c", "scen_b", "World", "Emissions|CO2", "Gt C/yr", 2050, 5000⟩]⟩, []) := by
  norm_num [qrwFill, simpleFiller_eq, simpleTimeCol, simpleLeaderUnits, simpleTimes,
    simpleLead, qrwFillOut, qrwDiags, qrwApply, interpOf, lookupInterp,
    interpClamped]

/-- C1: on the synthetic two-point-per-scenario dataset `simple_df` (leader
values 0 and 1, follower values 0 and 1, kernel weights 5/6 and 1/6), deriving
the relationship with one window and quantile 0.58 and filling the same data
yields (0.58 - 5/12) * 2 for the scenario at leader value 0 and
(0.58 - 1/12) * 2 for the scenario at leader value 1. -/
theorem quantile_rolling_windows_worked_values :
    (qrwDerive simpleDf "Emissions|CO2" ["Emissions|CH4"] (29/50) (some 1) 1 false).isOk
        = true ∧
    (qrwFill simpleFiller simpleDf).isOk = true ∧
    lookupValue simpleFilled.1 "model_c" "scen_a" 2010 = (29/50 - 5/12) * 2 ∧
    lookupValue simpleFilled.1 "model_c" "scen_b" 2010 = (29/50 - 1/12) * 2 := by
  refine ⟨by simp [simpleDerive, Except.isOk, Except.toBool],
    by simp [simpleFill, Except.isOk, Except.toBool], ?_, ?_⟩ <;>
  · simp [simpleFilled, simpleFill, Except.toOption, Option.getD, lookupValue, firstMatch]
    norm_num

lemma mem_uniqueFrom {α : Type} [DecidableEq α] (a : α) :
    ∀ (l seen : List α), a ∈ uniqueFrom seen l ↔ a ∈ l ∧ a ∉ seen := by
  intro l
  induction l with
  | nil => intro seen; simp [uniqueFrom]
  | cons b l ih =>
    intro seen
    by_cases hb : b ∈ seen
    · rw [uniqueFrom, if_pos hb, ih]
      constructor
      · rintro ⟨h1, h2⟩; exact ⟨List.mem_cons_of_mem b h1, h2⟩
      · rintro ⟨h1, h2⟩
        rcases List.mem_cons.1 h1 with rfl | h1
        · exact absurd hb h2
        · exact ⟨h1, h2⟩
    · rw [uniqueFrom, if_neg hb]
      constructor
      · intro h
        rcases List.mem_cons.1 h with rfl | h
        · exact ⟨List.mem_cons_self a l, hb⟩
        · rw [ih] at h
          refine ⟨List.mem_cons_of_mem b h.1, fun hseen => h.2 ?_⟩
          exact List.mem_cons_of_mem b hseen
      · rintro ⟨h1, h2⟩
        rcases List.mem_cons.1 h1 with rfl | h1
        · exact List.mem_cons_self a _
        · by_cases hab : a = b
          · subst hab; exact List.mem_cons_self a _
          · refine List.mem_cons_of_mem b ((ih (b :: seen)).2 ⟨h1, ?_⟩)
            intro hmem
            rcases List.mem_cons.1 hmem with h | h
            · exact hab h
            · exact h2 h

lemma mem_unique {α : Type} [DecidableEq α] (a : α) (l : List α) :
    a ∈ unique l ↔ a ∈ l := by
  rw [unique, mem_uniqueFrom]; simp

lemma nodup_uniqueFrom {α : Type} [DecidableEq α] :
    ∀ (l seen : List α), (uniqueFrom seen l).Nodup := by
  intro l
  induction l with
  | nil => intro seen; simp [uniqueFrom]
  | cons b l ih =>
    intro seen
    by_cases hb : b ∈ seen
    · rw [uniqueFrom, if_pos hb]; exact ih seen
    · rw [uniqueFrom, if_neg hb]
      refine List.Nodup.cons ?_ (ih (b :: seen))
      intro hmem
      exact ((mem_uniqueFrom b l (b :: seen)).1 hmem).2 (List.mem_cons_self b seen)

lemma nodup_unique {α : Type} [DecidableEq α] (l : List α) : (unique l).Nodup :=
  nodup_uniqueFrom l []

lemma nodup_dfTimes (df : IamDataFrame) : (dfTimes df).Nodup :=
  nodup_unique _

lemma qrwDerive_ok {db : IamDataFrame} {follower : String} {leaders : List String}
    {q fac : ℚ} {nw : Option ℚ} {rm : Bool} {f : QrwFiller}
    (h : qrwDerive db follower leaders q nw fac rm = .ok f) :
    f = qrwBuild db follower leaders q nw fac rm := by
  unfold qrwDerive at h
  repeat' split at h
  any_goals exact (Except.noConfusion h)
  exact (Except.ok.inj h).symm

lemma qrwFill_ok {f : QrwFiller} {df out : IamDataFrame} {dg : List Int}
    (h : qrwFill f df = .ok (out, dg)) :
    out = qrwFillOut f df ∧ dg = qrwDiags f df := by
  unfold qrwFill at h
  repeat' split at h
  any_goals exact (Except.noConfusion h)
  have := Except.ok.inj h
  exact ⟨congrArg Prod.fst this.symm, congrArg Prod.snd this.symm⟩

lemma samplesAt_time_mem {df : IamDataFrame} {leader follower : String} {t : Int}
    {s : Sample} (h : s ∈ samplesAt df leader follower t) : t ∈ dfTimes df := by
  unfold samplesAt at h
  rcases List.mem_filterMap.1 h with ⟨rl, hrl, _⟩
  have hrow := List.mem_filter.1 hrl
  have ht : rl.time = t := (of_decide_eq_true hrow.2).2
  rw [dfTimes, mem_unique]
  exact ht ▸ List.mem_map_of_mem (·.time) hrow.1

/-- C4: in ratio mode, whenever a crunched time step contains a sample with
leader value 0 and follower value 0, the fill output for a leader value of 0
at that time step is 0 (not NaN and not an error), and the diagnostic record
of a successful fill covering that time step mentions it exactly once. -/
theorem ratio_mode_zero_output (db df : IamDataFrame) (follower : String)
    (leaders : List String) (q fac : ℚ) (nw : Option ℚ) (f : QrwFiller)
    (out : IamDataFrame) (dg : List Int) (t : Int) (s : Sample)
    (hd : qrwDerive db follower leaders q nw fac true = .ok f)
    (hs : s ∈ samplesAt (qrwUseDb db follower leaders) (leaders.headD "") follower t)
    (hx : s.x = 0)
    (hf : qrwFill f df = .ok (out, dg))
    (ht : t ∈ dfTimes df) :
    qrwApply f t 0 = 0 ∧ dg.count t = 1 := by
  have hfb := qrwDerive_ok hd
  have hdg := (qrwFill_ok hf).2
  constructor
  · rw [qrwApply, hfb]
    simp [qrwBuild]
  · have hdiag : t ∈ f.diagTimes := by
      rw [hfb]
      simp only [qrwBuild]
      refine List.mem_filter.2 ⟨samplesAt_time_mem hs, ?_⟩
      simp only [decide_eq_true_eq, diagAt]
      exact Or.inl ⟨trivial, s, hs, hx⟩
    rw [hdg, qrwDiags, List.count_filter (by simpa using hdiag)]
    exact List.count_eq_one_of_mem (nodup_dfTimes df) ht

lemma simpleCurve2030R :
    quantileCurve [⟨300, 10/3⟩, ⟨300, 10/3⟩] 1 1 (29/50) = [(300, 10/3)] := by
  norm_num [quantileCurve, quantileAt, sortByY, insertByY, kernelWeight, midPairs,
    interpClamped, curvePts, sampleMinX, sampleMaxX, windowStep, windowDecay]

lemma simpleCurve2050R :
    quantileCurve [⟨500, 10⟩, ⟨500, 10⟩] 1 1 (29/50) = [(500, 10)] := by
  norm_num [quantileCurve, quantileAt, sortByY, insertByY, kernelWeight, midPairs,
    interpClamped, curvePts, sampleMinX, sampleMaxX, windowStep, windowDecay]

lemma simpleRatioDerive :
    qrwDerive simpleDf "Emissions|CO2" ["Emissions|CH4"] (29/50) (some 1) 1 true =
      .ok ⟨"year", "Mt CH4/yr", "Gt C/yr", "Emissions|CO2", ["Emissions|CH4"], true,
        [(2010, interpClamped [(0, 49/150), (1, 149/150)]),
         (2030, interpClamped [(300, 10/3)]),
         (2050, interpClamped [(500, 10)])], [2010]⟩ := by
  norm_num [qrwDerive, qrwBuild, simpleUse, simpleTimes, simpleRowsNe, simpleLeaderUnits,
    simpleFollowerUnits, simpleSamples2010, simpleSamples2030, simpleSamples2050,
    nwNonInteger, nwindowsOf, ratioSamples, simpleCurve2010, simpleCurve2030R,
    simpleCurve2050R, diagAt, List.cons_ne_nil, simpleTimeCol]

lemma simpleRatioFiller_eq :
    simpleRatioFiller = ⟨"year", "Mt CH4/yr", "Gt C/yr", "Emissions|CO2",
      ["Emissions|CH4"], true,
      [(2010, interpClamped [(0, 49/150), (1, 149/150)]),
       (2030, interpClamped [(300, 10/3)]),
       (2050, interpClamped [(500, 10)])], [2010]⟩ := by
  simp [simpleRatioFiller, simpleRatioDerive, Except.toOption, Option.getD]

lemma simpleRatioFill :
    qrwFill simpleRatioFiller simpleDf =
      .ok (⟨"year",
        [⟨"model_c", "scen_a", "World", "Emissions|CO2", "Gt C/yr", 2010, 0⟩,
         ⟨"model_c", "scen_a", "World", "Emissions|CO2", "Gt C/yr", 2030, 1000⟩,
         ⟨"model_c", "scen_a", "World", "Emissions|CO2", "Gt C/yr", 2050, 5000⟩,
         ⟨"model_c", "scen_b", "World", "Emissions|CO2", "Gt C/yr", 2010, 149/150⟩,
         ⟨"model_c", "scen_b", "World", "Emissions|CO2", "Gt C/yr", 2030, 1000⟩,
         ⟨"model_c", "scen_b", "World", "Emissions|CO2", "Gt C/yr", 2050, 5000⟩]⟩,
        [2010]) := by
  norm_num [qrwFill, simpleRatioFiller_eq, simpleTimeCol, simpleLeaderUnits, simpleTimes,
    simpleLead, qrwFillOut, qrwDiags, qrwApply, interpOf, lookupInterp, interpClamped]

/-- Witness for C4 at the `simple_df` fixture in ratio mode: the 2010 time
step has the 0/0 sample, the fill output at leader value 0 is 0 and the
diagnostic list of the fill mentions 2010 exactly once. -/
theorem ratio_mode_zero_output_witness :
    qrwDerive simpleDf "Emissions|CO2" ["Emissions|CH4"] (29/50) (some 1) 1 true =
        .ok simpleRatioFiller ∧
    (⟨0, 0⟩ : Sample) ∈ samplesAt (qrwUseDb simpleDf "Emissions|CO2" ["Emissions|CH4"])
        ((["Emissions|CH4"] : List String).headD "") "Emissions|CO2" 2010 ∧
    qrwFill simpleRatioFiller simpleDf = .ok (simpleRatioFilled.1, simpleRatioFilled.2) ∧
    2010 ∈ dfTimes simpleDf ∧
    qrwApply simpleRatioFiller 2010 0 = 0 ∧ simpleRatioFilled.2.count 2010 = 1 := by
  have h1 : qrwDerive simpleDf "Emissions|CO2" ["Emissions|CH4"] (29/50) (some 1) 1 true =
      .ok simpleRatioFiller := by
    rw [simpleRatioDerive, simpleRatioFiller_eq]
  have h2 : (⟨0, 0⟩ : Sample) ∈ samplesAt (qrwUseDb simpleDf "Emissions|CO2"
      ["Emissions|CH4"]) ((["Emissions|CH4"] : List String).headD "") "Emissions|CO2"
      2010 := by
    rw [simpleUse]
    simp [simpleSamples2010]
  have h3 : qrwFill simpleRatioFiller simpleDf =
      .ok (simpleRatioFilled.1, simpleRatioFilled.2) := by
    rw [simpleRatioFill]
    simp [simpleRatioFilled, simpleRatioFill, Except.toOption, Option.getD]
  have h4 : (2010 : Int) ∈ dfTimes simpleDf := by
    rw [simpleTimes]; simp
  refine ⟨h1, h2, h3, h4, ?_⟩
  exact ratio_mode_zero_output simpleDf simpleDf "Emissions|CO2" ["Emissions|CH4"]
    (29/50) 1 (some 1) simpleRatioFiller simpleRatioFilled.1 simpleRatioFilled.2
    2010 ⟨0, 0⟩ h1 h2 rfl h3 h4

lemma interpClamped_cons_cons (x0 y0 x1 y1 : ℚ) (rest : List (ℚ × ℚ)) (x : ℚ) :
    interpClamped ((x0, y0) :: (x1, y1) :: rest) x =
      if x ≤ x0 then y0
      else if x ≤ x1 then y0 + (y1 - y0) * ((x - x0) / (x1 - x0))
      else interpClamped ((x1, y1) :: rest) x := rfl

lemma interpClamped_first (x0 y0 : ℚ) (ps : List (ℚ × ℚ)) (x : ℚ) (h : x ≤ x0) :
    interpClamped ((x0, y0) :: ps) x = y0 := by
  cases ps with
  | nil => rfl
  | cons p ps =>
    cases p
    rw [interpClamped_cons_cons, if_pos h]

lemma curvePts_cons (v : ℚ → ℚ) (c step : ℚ) (n : ℕ) :
    ∃ ps, curvePts v c step n = (c, v c) :: ps := by
  cases n with
  | zero => exact ⟨[], rfl⟩
  | succ n => exact ⟨curvePts v (c + step) step n, rfl⟩

lemma interpClamped_curvePts_below (v : ℚ → ℚ) (c step x : ℚ) (n : ℕ) (h : x ≤ c) :
    interpClamped (curvePts v c step n) x = v c := by
  obtain ⟨ps, hps⟩ := curvePts_cons v c step n
  rw [hps]
  exact interpClamped_first c (v c) ps x h

lemma interpClamped_curvePts_above (v : ℚ → ℚ) (step : ℚ) (n : ℕ) (hstep : 0 < step) :
    ∀ (c x : ℚ), c + n * step ≤ x →
      interpClamped (curvePts v c step n) x = v (c + n * step) := by
  induction n with
  | zero => intro c x _; simp [curvePts, interpClamped]
  | succ n ih =>
    intro c x h
    have hn0 : (0 : ℚ) ≤ (n : ℚ) := by positivity
    have hcast : ((n + 1 : ℕ) : ℚ) = (n : ℚ) + 1 := by push_cast; ring
    rw [hcast] at h
    have hx0 : ¬ x ≤ c := by nlinarith
    obtain ⟨ps, hps⟩ := curvePts_cons v (c + step) step n
    rw [curvePts, hps, interpClamped_cons_cons, if_neg hx0]
    cases n with
    | zero =>
      have hx1 : c + step ≤ x := by push_cast at h ⊢; linarith
      have hps0 : ps = [] := by
        simpa [curvePts] using hps.symm
      subst hps0
      by_cases hcase : x ≤ c + step
      · have hxeq : x = c + step := le_antisymm hcase hx1
        rw [if_pos hcase]
        have hne : c + step - c ≠ 0 := by linarith
        rw [hxeq, div_self hne]
        push_cast
        ring_nf
      · rw [if_neg hcase]
        push_cast
        simp [interpClamped]
    | succ m =>
      have hx1 : ¬ x ≤ c + step := by
        push_cast at h
        have : (0 : ℚ) ≤ (m : ℚ) := by positivity
        nlinarith
      rw [if_neg hx1, ← hps]
      have := ih (c + step) x (by push_cast at h ⊢; linarith)
      rw [this]
      push_cast
      ring_nf

/-- C2: the derived quantile curve is evaluated with flat clamped
extrapolation.  An input at or below the lowest window center yields the
quantile value at that boundary center, an input at or above the highest
window center yields the quantile value at that boundary center, and any two
inputs beyond the same end of the fitted range (for example after pushing the
extreme further out) yield identical output. -/
theorem clamped_extrapolation (samples : List Sample) (nwin : ℕ) (fac q x xp : ℚ)
    (hn : 0 < nwin) (hr : sampleMinX samples < sampleMaxX samples) :
    (x ≤ sampleMinX samples →
      interpClamped (quantileCurve samples nwin fac q) x =
        (quantileAt samples (sampleMinX samples) (windowDecay samples nwin fac) q).1) ∧
    (sampleMaxX samples ≤ x →
      interpClamped (quantileCurve samples nwin fac q) x =
        (quantileAt samples (sampleMaxX samples) (windowDecay samples nwin fac) q).1) ∧
    (x ≤ sampleMinX samples → xp ≤ sampleMinX samples →
      interpClamped (quantileCurve samples nwin fac q) x =
        interpClamped (quantileCurve samples nwin fac q) xp) ∧
    (sampleMaxX samples ≤ x → sampleMaxX samples ≤ xp →
      interpClamped (quantileCurve samples nwin fac q) x =
        interpClamped (quantileCurve samples nwin fac q) xp) := by
  have hne : sampleMinX samples ≠ sampleMaxX samples := ne_of_lt hr
  have hnq : (nwin : ℚ) ≠ 0 := by
    have : (0 : ℚ) < (nwin : ℚ) := by exact_mod_cast hn
    exact ne_of_gt this
  have hstep : 0 < windowStep samples nwin := by
    rw [windowStep]
    have : (0 : ℚ) < (nwin : ℚ) := by exact_mod_cast hn
    exact div_pos (sub_pos.2 hr) this
  have hcurve : quantileCurve samples nwin fac q =
      curvePts (fun c => (quantileAt samples c (windowDecay samples nwin fac) q).1)
        (sampleMinX samples) (windowStep samples nwin) nwin := by
    rw [quantileCurve, if_neg hne]
  have hhi : sampleMinX samples + nwin * windowStep samples nwin = sampleMaxX samples := by
    rw [windowStep]
    field_simp
  have hbelow : ∀ z : ℚ, z ≤ sampleMinX samples →
      interpClamped (quantileCurve samples nwin fac q) z =
        (quantileAt samples (sampleMinX samples) (windowDecay samples nwin fac) q).1 := by
    intro z hz
    rw [hcurve]
    exact interpClamped_curvePts_below _ _ _ z nwin hz
  have habove : ∀ z : ℚ, sampleMaxX samples ≤ z →
      interpClamped (quantileCurve samples nwin fac q) z =
        (quantileAt samples (sampleMaxX samples) (windowDecay samples nwin fac) q).1 := by
    intro z hz
    rw [hcurve]
    have := interpClamped_curvePts_above
      (fun c => (quantileAt samples c (windowDecay samples nwin fac) q).1)
      (windowStep samples nwin) nwin hstep (sampleMinX samples) z (by rw [hhi]; exact hz)
    rw [this, hhi]
  refine ⟨hbelow x, habove x, ?_, ?_⟩
  · intro h1 h2; rw [hbelow x h1, hbelow xp h2]
  · intro h1 h2; rw [habove x h1, habove xp h2]

/-- Witness for C2 on the two-point sample list: inputs 2 and 7, both above
the maximal center 1, give the boundary quantile value, and both give the
same output. -/
theorem clamped_extrapolation_witness :
    0 < 1 ∧
    sampleMinX [⟨0, 0⟩, ⟨1, 1⟩] < sampleMaxX [⟨0, 0⟩, ⟨1, 1⟩] ∧
    sampleMaxX [⟨0, 0⟩, ⟨1, 1⟩] ≤ (2 : ℚ) ∧
    sampleMaxX [⟨0, 0⟩, ⟨1, 1⟩] ≤ (7 : ℚ) ∧
    interpClamped (quantileCurve [⟨0, 0⟩, ⟨1, 1⟩] 1 1 (1/2)) 2 =
      (quantileAt [⟨0, 0⟩, ⟨1, 1⟩] (sampleMaxX [⟨0, 0⟩, ⟨1, 1⟩])
        (windowDecay [⟨0, 0⟩, ⟨1, 1⟩] 1 1) (1/2)).1 ∧
    interpClamped (quantileCurve [⟨0, 0⟩, ⟨1, 1⟩] 1 1 (1/2)) 2 =
      interpClamped (quantileCurve [⟨0, 0⟩, ⟨1, 1⟩] 1 1 (1/2)) 7 := by
  have h1 : (0 : ℕ) < 1 := Nat.one_pos
  have h2 : sampleMinX [⟨0, 0⟩, ⟨1, 1⟩] < sampleMaxX [⟨0, 0⟩, ⟨1, 1⟩] := by
    norm_num [sampleMinX, sampleMaxX]
  have h3 : sampleMaxX [⟨0, 0⟩, ⟨1, 1⟩] ≤ (2 : ℚ) := by
    norm_num [sampleMaxX]
  have h4 : sampleMaxX [⟨0, 0⟩, ⟨1, 1⟩] ≤ (7 : ℚ) := by
    norm_num [sampleMaxX]
  refine ⟨h1, h2, h3, h4, ?_, ?_⟩
  · exact (clamped_extrapolation [⟨0, 0⟩, ⟨1, 1⟩] 1 1 (1/2) 2 7 h1 h2).2.1 h3
  · exact (clamped_extrapolation [⟨0, 0⟩, ⟨1, 1⟩] 1 1 (1/2) 2 7 h1 h2).2.2.2 h3 h4

/-- C5: a quantile outside [0, 1] is rejected by the builder with the
invalid-quantile error carrying the offending value, whose rendered message
names that exact value; the rejection happens for every database, including
the empty one, so it precedes the no-data check and any computation. -/
theorem invalid_quantile_rejected (db : IamDataFrame) (follower : String)
    (leaders : List String) (q fac : ℚ) (nw : Option ℚ) (rm : Bool)
    (hlen : leaders.length = 1) (hq : q < 0 ∨ 1 < q) :
    qrwDerive db follower leaders q nw fac rm = .error (.invalidQuantile q) ∧
    renderError (.invalidQuantile q) =
      "Invalid quantile (" ++ toString q ++ "), it must be in [0, 1]" := by
  constructor
  · rw [qrwDerive, if_neg (by simp [hlen]), if_pos hq]
  · rfl

/-- Witness for C5: quantile -1/10 is rejected on the empty database with the
message naming -1/10. -/
theorem invalid_quantile_rejected_witness :
    (["Emissions|CO2"] : List String).length = 1 ∧
    ((-1/10 : ℚ) < 0 ∨ 1 < (-1/10 : ℚ)) ∧
    qrwDerive ⟨"year", []⟩ "Emissions|CH4" ["Emissions|CO2"] (-1/10) none 1 false =
      .error (.invalidQuantile (-1/10)) ∧
    renderError (.invalidQuantile (-1/10)) =
      "Invalid quantile (" ++ toString (-1/10 : ℚ) ++ "), it must be in [0, 1]" := by
  have h1 : (["Emissions|CO2"] : List String).length = 1 := rfl
  have h2 : (-1/10 : ℚ) < 0 ∨ 1 < (-1/10 : ℚ) := Or.inl (by norm_num)
  exact ⟨h1, h2,
    (invalid_quantile_rejected ⟨"year", []⟩ "Emissions|CH4" ["Emissions|CO2"]
      (-1/10) 1 none false h1 h2).1,
    (invalid_quantile_rejected ⟨"year", []⟩ "Emissions|CH4" ["Emissions|CO2"]
      (-1/10) 1 none false h1 h2).2⟩

/-- C8: with a leader list whose length differs from 1 the SSP builder raises
the not-yet-implemented error for every database, including the empty one, so
the check precedes the database filtering and the no-data error. -/
theorem multi_leader_not_implemented (db : IamDataFrame) (variable_follower : String)
    (variable_leaders : List String) (scenOk : String → Bool)
    (hlen : variable_leaders.length ≠ 1) :
    derive_relationship db variable_follower variable_leaders scenOk =
      .error .notImplemented := by
  rw [derive_relationship, if_pos hlen]

/-- Witness for C8: two leader variables are rejected on the empty database,
where the no-data error would otherwise fire. -/
theorem multi_leader_not_implemented_witness :
    (["Emissions|CH4", "Emissions|HFC|C5F12"] : List String).length ≠ 1 ∧
    derive_relationship ⟨"year", []⟩ "Emissions|CO2"
      ["Emissions|CH4", "Emissions|HFC|C5F12"] (fun _ => true) =
      .error .notImplemented ∧
    (CruncherError.notImplemented ≠ CruncherError.noData) := by
  have h1 : (["Emissions|CH4", "Emissions|HFC|C5F12"] : List String).length ≠ 1 := by
    decide
  exact ⟨h1, multi_leader_not_implemented ⟨"year", []⟩ "Emissions|CO2"
    ["Emissions|CH4", "Emissions|HFC|C5F12"] (fun _ => true) h1, by decide⟩

/-- C6: when the earlier validation of the SSP filler passes (matching time
column, a single matching leader unit) but some requested time step has no
crunched interpolator, the call fails with the error carrying both the
crunched time steps and the sorted requested time steps, and no frame is
returned. -/
theorem missing_timepoints_error (f : SspFiller) (df : IamDataFrame)
    (h1 : df.timeCol = f.timeCol)
    (h2 : getUnitOfVariables df f.leaders = [f.leaderUnit])
    (h3 : ∃ t ∈ dfTimes df, t ∉ f.interps.map Prod.fst) :
    filler f df = .error (.missingTimepoints (f.interps.map Prod.fst)
      (dfSortedTimes df)) := by
  rw [filler, if_neg (by simp [h1]), if_neg (by simp [h2]), if_neg (by simp [h2]),
    if_neg (by simp [h2]), if_pos h3]

/-- Witness for C6: a relationship crunched only for 2010, asked to fill a
frame whose data sits at 2030. -/
theorem missing_timepoints_error_witness :
    (⟨"year", [⟨"m", "s", "W", "L", "u", 2030, 1⟩]⟩ : IamDataFrame).timeCol =
      (⟨"year", "u", ["Mt"], "F", ["L"], [(2010, fun x => x)]⟩ : SspFiller).timeCol ∧
    getUnitOfVariables ⟨"year", [⟨"m", "s", "W", "L", "u", 2030, 1⟩]⟩ ["L"] = ["u"] ∧
    (∃ t ∈ dfTimes ⟨"year", [⟨"m", "s", "W", "L", "u", 2030, 1⟩]⟩,
      t ∉ ([(2010, fun x => x)] : List (Int × (ℚ → ℚ))).map Prod.fst) ∧
    filler ⟨"year", "u", ["Mt"], "F", ["L"], [(2010, fun x => x)]⟩
        ⟨"year", [⟨"m", "s", "W", "L", "u", 2030, 1⟩]⟩ =
      .error (.missingTimepoints
        (([(2010, fun x => x)] : List (Int × (ℚ → ℚ))).map Prod.fst)
        (dfSortedTimes ⟨"year", [⟨"m", "s", "W", "L", "u", 2030, 1⟩]⟩)) := by
  have h1 : (⟨"year", [⟨"m", "s", "W", "L", "u", 2030, 1⟩]⟩ : IamDataFrame).timeCol =
      (⟨"year", "u", ["Mt"], "F", ["L"], [(2010, fun x => x)]⟩ : SspFiller).timeCol := rfl
  have h2 : getUnitOfVariables ⟨"year", [⟨"m", "s", "W", "L", "u", 2030, 1⟩]⟩ ["L"] =
      ["u"] := by
    simp [getUnitOfVariables, unique, uniqueFrom]
  have h3 : ∃ t ∈ dfTimes ⟨"year", [⟨"m", "s", "W", "L", "u", 2030, 1⟩]⟩,
      t ∉ ([(2010, fun x => x)] : List (Int × (ℚ → ℚ))).map Prod.fst := by
    refine ⟨2030, ?_, ?_⟩
    · simp [dfTimes, unique, uniqueFrom]
    · simp
  exact ⟨h1, h2, h3, missing_timepoints_error _ _ h1 h2 h3⟩

lemma filler_ok {f : SspFiller} {df out : IamDataFrame}
    (h : filler f df = .ok out) : out = sspFillOut f df := by
  unfold filler at h
  repeat' split at h
  any_goals exact (Except.noConfusion h)
  exact (Except.ok.inj h).symm

/-- C7: a successful SSP filler call returns only follower rows: every output
row carries the follower variable name and the first recorded follower unit,
the output rows are aligned one for one with the (model, scenario, region)
labels of the input leader rows, and, when the follower is not itself a
leader, no leader row remains in the output. -/
theorem filler_output_follower_only (f : SspFiller) (df out : IamDataFrame)
    (h : filler f df = .ok out) :
    (∀ r ∈ out.rows, r.variable' = f.follower ∧ r.unit = f.followerUnits.headD "") ∧
    out.rows.map (fun r => (r.model, r.scenario, r.region)) =
      (filterVariables df f.leaders).rows.map (fun r => (r.model, r.scenario, r.region)) ∧
    (f.follower ∉ f.leaders → ∀ r ∈ out.rows, r.variable' ∉ f.leaders) := by
  have hout := filler_ok h
  subst hout
  refine ⟨?_, ?_, ?_⟩
  · intro r hr
    rw [sspFillOut] at hr
    obtain ⟨r0, _, rfl⟩ := List.mem_map.1 hr
    exact ⟨rfl, rfl⟩
  · rw [sspFillOut, List.map_map]
    rfl
  · intro hnl r hr
    rw [sspFillOut] at hr
    obtain ⟨r0, _, rfl⟩ := List.mem_map.1 hr
    simpa using hnl

/-- Witness for C7: a filler holding one interpolator for 2010 applied to a
frame with two leader rows and one unrelated row returns exactly the two
transformed follower rows. -/
theorem filler_output_follower_only_witness :
    filler ⟨"year", "u", ["Mt"], "F", ["L"], [(2010, fun x => x + 1)]⟩
        ⟨"year", [⟨"m", "s1", "W", "L", "u", 2010, 1⟩,
                  ⟨"m", "s2", "W", "L", "u", 2010, 2⟩,
                  ⟨"m", "s1", "W", "X", "ux", 2010, 5⟩]⟩ =
      .ok ⟨"year", [⟨"m", "s1", "W", "F", "Mt", 2010, 2⟩,
                    ⟨"m", "s2", "W", "F", "Mt", 2010, 3⟩]⟩ ∧
    (∀ r ∈ (⟨"year", [⟨"m", "s1", "W", "F", "Mt", 2010, 2⟩,
                      ⟨"m", "s2", "W", "F", "Mt", 2010, 3⟩]⟩ : IamDataFrame).rows,
      r.variable' = (⟨"year", "u", ["Mt"], "F", ["L"],
        [(2010, fun x => x + 1)]⟩ : SspFiller).follower ∧
      r.unit = (⟨"year", "u", ["Mt"], "F", ["L"],
        [(2010, fun x => x + 1)]⟩ : SspFiller).followerUnits.headD "") ∧
    (⟨"year", [⟨"m", "s1", "W", "F", "Mt", 2010, 2⟩,
               ⟨"m", "s2", "W", "F", "Mt", 2010, 3⟩]⟩ : IamDataFrame).rows.map
        (fun r => (r.model, r.scenario, r.region)) =
      (filterVariables ⟨"year", [⟨"m", "s1", "W", "L", "u", 2010, 1⟩,
                                 ⟨"m", "s2", "W", "L", "u", 2010, 2⟩,
                                 ⟨"m", "s1", "W", "X", "ux", 2010, 5⟩]⟩ ["L"]).rows.map
        (fun r => (r.model, r.scenario, r.region)) := by
  have h : filler ⟨"year", "u", ["Mt"], "F", ["L"], [(2010, fun x => x + 1)]⟩
      ⟨"year", [⟨"m", "s1", "W", "L", "u", 2010, 1⟩,
                ⟨"m", "s2", "W", "L", "u", 2010, 2⟩,
                ⟨"m", "s1", "W", "X", "ux", 2010, 5⟩]⟩ =
      .ok ⟨"year", [⟨"m", "s1", "W", "F", "Mt", 2010, 2⟩,
                    ⟨"m", "s2", "W", "F", "Mt", 2010, 3⟩]⟩ := by
    simp [filler, getUnitOfVariables, unique, uniqueFrom, dfTimes, sspFillOut,
      filterVariables, lookupInterp]
    norm_num
  have hc := filler_output_follower_only _ _ _ h
  exact ⟨h, hc.1, hc.2.1⟩

/-- C9: when the filtered reference database records the leader variable
under more than one unit the SSP builder does not raise; it records only the
first returned unit, and any later fill whose input carries the second unit
is rejected with the units-mismatch error pairing the recorded and the found
unit. -/
theorem multi_unit_first_recorded (db : IamDataFrame) (variable_follower : String)
    (variable_leaders : List String) (scenOk : String → Bool) (u1 u2 : String)
    (rest : List String)
    (hlen : variable_leaders.length = 1)
    (hne : (sspUseDb db variable_follower variable_leaders scenOk).rows ≠ [])
    (hlu : getUnitOfVariables (sspUseDb db variable_follower variable_leaders scenOk)
      variable_leaders = u1 :: u2 :: rest)
    (hfu : getUnitOfVariable (sspUseDb db variable_follower variable_leaders scenOk)
      variable_follower ≠ []) :
    ∃ f, derive_relationship db variable_follower variable_leaders scenOk = .ok f ∧
      f.leaderUnit = u1 ∧
      ∀ df : IamDataFrame, df.timeCol = db.timeCol →
        getUnitOfVariables df variable_leaders = [u2] →
        filler f df = .error (.unitsMismatch u1 u2) := by
  have hnodup : (getUnitOfVariables (sspUseDb db variable_follower variable_leaders
      scenOk) variable_leaders).Nodup := nodup_unique _
  rw [hlu] at hnodup
  have hu12 : u1 ≠ u2 := by
    have := List.Nodup.not_mem hnodup
    intro hcontra
    exact this (hcontra ▸ List.mem_cons_self u2 rest)
  have hderive : derive_relationship db variable_follower variable_leaders scenOk =
      .ok ⟨(sspUseDb db variable_follower variable_leaders scenOk).timeCol,
        (getUnitOfVariables (sspUseDb db variable_follower variable_leaders scenOk)
          variable_leaders).headD "",
        getUnitOfVariable (sspUseDb db variable_follower variable_leaders scenOk)
          variable_follower,
        variable_follower, variable_leaders,
        makeInterpolator variable_follower (variable_leaders.headD "")
          (sspUseDb db variable_follower variable_leaders scenOk)⟩ := by
    rw [derive_relationship, if_neg (by simp [hlen]), if_neg hne,
      if_neg (by simp [hlu]), if_neg hfu]
  refine ⟨_, hderive, by simp [hlu], ?_⟩
  intro df htc hunits
  rw [filler]
  rw [if_neg (by simp [htc, sspUseDb]), if_neg (by simp [hunits]),
    if_neg (by simp [hunits]), if_pos (by simp [hunits, hlu]; exact fun h => hu12 h.symm)]
  simp [hunits, hlu]

/-- Witness for C9: leader `L` recorded under units `uA` then `uB`; the build
succeeds recording `uA`, and filling data whose unit is `uB` is rejected with
the mismatch error naming `uA` and `uB`. -/
theorem multi_unit_first_recorded_witness :
    (["L"] : List String).length = 1 ∧
    (sspUseDb ⟨"year", [⟨"m", "s1", "W", "L", "uA", 2010, 1⟩,
                        ⟨"m", "s2", "W", "L", "uB", 2010, 2⟩,
                        ⟨"m", "s1", "W", "F", "uF", 2010, 10⟩]⟩ "F" ["L"]
      (fun _ => true)).rows ≠ [] ∧
    getUnitOfVariables (sspUseDb ⟨"year", [⟨"m", "s1", "W", "L", "uA", 2010, 1⟩,
                        ⟨"m", "s2", "W", "L", "uB", 2010, 2⟩,
                        ⟨"m", "s1", "W", "F", "uF", 2010, 10⟩]⟩ "F" ["L"]
      (fun _ => true)) ["L"] = ["uA", "uB"] ∧
    getUnitOfVariable (sspUseDb ⟨"year", [⟨"m", "s1", "W", "L", "uA", 2010, 1⟩,
                        ⟨"m", "s2", "W", "L", "uB", 2010, 2⟩,
                        ⟨"m", "s1", "W", "F", "uF", 2010, 10⟩]⟩ "F" ["L"]
      (fun _ => true)) "F" ≠ [] ∧
    (∃ f, derive_relationship ⟨"year", [⟨"m", "s1", "W", "L", "uA", 2010, 1⟩,
                        ⟨"m", "s2", "W", "L", "uB", 2010, 2⟩,
                        ⟨"m", "s1", "W", "F", "uF", 2010, 10⟩]⟩ "F" ["L"]
        (fun _ => true) = .ok f ∧
      f.leaderUnit = "uA" ∧
      ∀ df : IamDataFrame, df.timeCol = "year" →
        getUnitOfVariables df ["L"] = ["uB"] →
        filler f df = .error (.unitsMismatch "uA" "uB")) := by
  have h1 : (["L"] : List String).length = 1 := rfl
  have h2 : (sspUseDb ⟨"year", [⟨"m", "s1", "W", "L", "uA", 2010, 1⟩,
      ⟨"m", "s2", "W", "L", "uB", 2010, 2⟩,
      ⟨"m", "s1", "W", "F", "uF", 2010, 10⟩]⟩ "F" ["L"] (fun _ => true)).rows ≠ [] := by
    simp [sspUseDb]
  have h3 : getUnitOfVariables (sspUseDb ⟨"year", [⟨"m", "s1", "W", "L", "uA", 2010, 1⟩,
      ⟨"m", "s2", "W", "L", "uB", 2010, 2⟩,
      ⟨"m", "s1", "W", "F", "uF", 2010, 10⟩]⟩ "F" ["L"] (fun _ => true)) ["L"] =
      ["uA", "uB"] := by
    simp [sspUseDb, getUnitOfVariables, unique, uniqueFrom]
  have h4 : getUnitOfVariable (sspUseDb ⟨"year", [⟨"m", "s1", "W", "L", "uA", 2010, 1⟩,
      ⟨"m", "s2", "W", "L", "uB", 2010, 2⟩,
      ⟨"m", "s1", "W", "F", "uF", 2010, 10⟩]⟩ "F" ["L"] (fun _ => true)) "F" ≠ [] := by
    simp [sspUseDb, getUnitOfVariable, getUnitOfVariables, unique, uniqueFrom]
  exact ⟨h1, h2, h3, h4, multi_unit_first_recorded _ "F" ["L"] (fun _ => true)
    "uA" "uB" [] h1 h2 h3 h4⟩

/-- C10: the SSP filler is a pure function of the captured relationship and
its input: running it with the stored reference database and the input frame
threaded explicitly returns both frames unchanged, and the result coincides
with the pure `filler`, so repeated calls on the same input give equal
results.  The only in-place operations of the source act on `output_ts`, a
frame newly built from `lead_var.timeseries()`. -/
theorem filler_pure_frame (f : SspFiller) (storedDb in_iamdf : IamDataFrame) :
    fillerRun f storedDb in_iamdf = (filler f in_iamdf, storedDb, in_iamdf) := by
  rw [fillerRun, filler]
  repeat' split
  all_goals rfl

lemma rtUse : qrwUseDb rtDb "Emissions|CO2" ["Emissions|CO2"] = rtDb := by
  simp [qrwUseDb, filterVariables, rtDb]

lemma rtTimes : dfTimes rtDb = [2010] := by
  simp [dfTimes, unique, uniqueFrom, rtDb]

lemma rtRowsNe : (rtDb.rows = []) = False := by
  simp [rtDb]

lemma rtUnits : getUnitOfVariables rtDb ["Emissions|CO2"] = ["Gt C/yr"] := by
  simp [getUnitOfVariables, unique, uniqueFrom, rtDb, List.filter]

lemma rtUnitsV : getUnitOfVariable rtDb "Emissions|CO2" = ["Gt C/yr"] := by
  simp [getUnitOfVariable, getUnitOfVariables, unique, uniqueFrom, rtDb, List.filter]

lemma rtSamples :
    samplesAt rtDb "Emissions|CO2" "Emissions|CO2" 2010 = [⟨0, 0⟩, ⟨1, 1⟩] := by
  simp [samplesAt, rtDb, firstMatch, List.filterMap]

lemma rtCurve :
    quantileCurve [⟨0, 0⟩, ⟨1, 1⟩] 1 1 (1/2) = [(0, 1/6), (1, 5/6)] := by
  norm_num [quantileCurve, quantileAt, sortByY, insertByY, kernelWeight, midPairs,
    interpClamped, curvePts, sampleMinX, sampleMaxX, windowStep, windowDecay]

lemma rtTimeCol : rtDb.timeCol = "year" := rfl

lemma rtRows :
    rtDb.rows =
      [⟨"model_a", "scen_a", "World", "Emissions|CO2", "Gt C/yr", 2010, 0⟩,
       ⟨"model_a", "scen_b", "World", "Emissions|CO2", "Gt C/yr", 2010, 1⟩] := rfl

lemma rtDerive :
    qrwDeriveDefaults rtDb "Emissions|CO2" ["Emissions|CO2"] =
      .ok ⟨"year", "Gt C/yr", "Gt C/yr", "Emissions|CO2", ["Emissions|CO2"], false,
        [(2010, interpClamped [(0, 1/6), (1, 5/6)])], []⟩ := by
  norm_num [qrwDeriveDefaults, qrwDerive, qrwBuild, rtUse, rtTimes, rtRowsNe, rtUnits,
    rtUnitsV, rtSamples, nwNonInteger, nwindowsOf, defaultNwindows, ratioSamples,
    rtCurve, diagAt, List.cons_ne_nil, rtTimeCol]

lemma rtFiller_eq :
    rtFiller = ⟨"year", "Gt C/yr", "Gt C/yr", "Emissions|CO2", ["Emissions|CO2"], false,
      [(2010, interpClamped [(0, 1/6), (1, 5/6)])], []⟩ := by
  simp [rtFiller, rtDerive, Except.toOption, Option.getD]

lemma rtLead :
    filterVariables rtDb ["Emissions|CO2"] = rtDb := by
  simp [filterVariables, rtDb]

lemma rtFill :
    qrwFill rtFiller rtDb =
      .ok (⟨"year",
        [⟨"model_a", "scen_a", "World", "Emissions|CO2", "Gt C/yr", 2010, 1/6⟩,
         ⟨"model_a", "scen_b", "World", "Emissions|CO2", "Gt C/yr", 2010, 5/6⟩]⟩,
        []) := by
  norm_num [qrwFill, rtFiller_eq, rtTimeCol, rtUnits, rtTimes, rtLead, rtRows,
    qrwFillOut, qrwDiags, qrwApply, interpOf, lookupInterp, interpClamped]

/-- C3 counterexample: deriving `Emissions|CO2` from itself on the two-point
database and filling the same database does not reproduce the original
values.  The original value of `scen_a` at 2010 is 0 but the round trip
returns 1/6, off by far more than any floating tolerance (here 1e-9). -/
theorem round_trip_not_reproduced :
    (qrwDeriveDefaults rtDb "Emissions|CO2" ["Emissions|CO2"]).isOk = true ∧
    (qrwFill rtFiller rtDb).isOk = true ∧
    lookupValue rtFilled.1 "model_a" "scen_a" 2010 = 1/6 ∧
    lookupValue rtDb "model_a" "scen_a" 2010 = 0 ∧
    ¬ |lookupValue rtFilled.1 "model_a" "scen_a" 2010 -
        lookupValue rtDb "model_a" "scen_a" 2010| ≤ 1/1000000000 := by
  have hv : lookupValue rtFilled.1 "model_a" "scen_a" 2010 = 1/6 := by
    simp [rtFilled, rtFill, Except.toOption, Option.getD, lookupValue, firstMatch]
  have ho : lookupValue rtDb "model_a" "scen_a" 2010 = 0 := by
    simp [rtDb, lookupValue, firstMatch]
  refine ⟨by simp [rtDerive, Except.isOk, Except.toBool],
    by simp [rtFill, Except.isOk, Except.toBool], hv, ho, ?_⟩
  rw [hv, ho, sub_zero, abs_of_nonneg (by norm_num : (0:ℚ) ≤ 1/6)]
  norm_num

lemma foldl_min_le_init (l : List ℚ) : ∀ a : ℚ, l.foldl min a ≤ a := by
  induction l with
  | nil => intro a; exact le_refl a
  | cons b l ih =>
    intro a
    calc (b :: l).foldl min a = l.foldl min (min a b) := rfl
    _ ≤ min a b := ih (min a b)
    _ ≤ a := min_le_left a b

lemma foldl_min_le_mem (l : List ℚ) : ∀ a b : ℚ, b ∈ l → l.foldl min a ≤ b := by
  induction l with
  | nil => intro a b hb; exact absurd hb (List.not_mem_nil b)
  | cons c l ih =>
    intro a b hb
    rcases List.mem_cons.1 hb with rfl | hb
    · calc (b :: l).foldl min a = l.foldl min (min a b) := rfl
      _ ≤ min a b := foldl_min_le_init l (min a b)
      _ ≤ b := min_le_right a b
    · exact ih (min a c) b hb

lemma le_foldl_max_init (l : List ℚ) : ∀ a : ℚ, a ≤ l.foldl max a := by
  induction l with
  | nil => intro a; exact le_refl a
  | cons b l ih =>
    intro a
    calc a ≤ max a b := le_max_left a b
    _ ≤ l.foldl max (max a b) := ih (max a b)
    _ = (b :: l).foldl max a := rfl

lemma mem_le_foldl_max (l : List ℚ) : ∀ a b : ℚ, b ∈ l → b ≤ l.foldl max a := by
  induction l with
  | nil => intro a b hb; exact absurd hb (List.not_mem_nil b)
  | cons c l ih =>
    intro a b hb
    rcases List.mem_cons.1 hb with rfl | hb
    · calc b ≤ max a b := le_max_right a b
      _ ≤ l.foldl max (max a b) := le_foldl_max_init l (max a b)
      _ = (b :: l).foldl max a := rfl
    · exact ih (max a c) b hb

lemma sampleMinY_le_of_mem {l : List Sample} {s : Sample} (h : s ∈ l) :
    sampleMinY l ≤ s.y := by
  cases l with
  | nil => exact absurd h (List.not_mem_nil s)
  | cons s0 ls =>
    rcases List.mem_cons.1 h with rfl | h
    · exact foldl_min_le_init _ _
    · exact foldl_min_le_mem _ _ _ (List.mem_map_of_mem (·.y) h)

lemma le_sampleMaxY_of_mem {l : List Sample} {s : Sample} (h : s ∈ l) :
    s.y ≤ sampleMaxY l := by
  cases l with
  | nil => exact absurd h (List.not_mem_nil s)
  | cons s0 ls =>
    rcases List.mem_cons.1 h with rfl | h
    · exact le_foldl_max_init _ _
    · exact mem_le_foldl_max _ _ _ (List.mem_map_of_mem (·.y) h)

lemma sampleMinX_le_of_mem {l : List Sample} {s : Sample} (h : s ∈ l) :
    sampleMinX l ≤ s.x := by
  cases l with
  | nil => exact absurd h (List.not_mem_nil s)
  | cons s0 ls =>
    rcases List.mem_cons.1 h with rfl | h
    · exact foldl_min_le_init _ _
    · exact foldl_min_le_mem _ _ _ (List.mem_map_of_mem (·.x) h)

lemma le_sampleMaxX_of_mem {l : List Sample} {s : Sample} (h : s ∈ l) :
    s.x ≤ sampleMaxX l := by
  cases l with
  | nil => exact absurd h (List.not_mem_nil s)
  | cons s0 ls =>
    rcases List.mem_cons.1 h with rfl | h
    · exact le_foldl_max_init _ _
    · exact mem_le_foldl_max _ _ _ (List.mem_map_of_mem (·.x) h)

lemma mem_insertByY {s t : Sample} : ∀ l : List Sample, t ∈ insertByY s l ↔ t = s ∨ t ∈ l := by
  intro l
  induction l with
  | nil => simp [insertByY]
  | cons u l ih =>
    rw [insertByY]
    by_cases h : s.y ≤ u.y
    · rw [if_pos h]
      simp [List.mem_cons]
    · rw [if_neg h]
      simp only [List.mem_cons, ih]
      tauto

lemma mem_sortByY {t : Sample} : ∀ l : List Sample, t ∈ sortByY l ↔ t ∈ l := by
  intro l
  induction l with
  | nil => simp [sortByY]
  | cons s l ih =>
    rw [sortByY, mem_insertByY]
    simp [List.mem_cons, ih]

lemma kernelWeight_pos (c d : ℚ) (s : Sample) : 0 < kernelWeight c d s := by
  rw [kernelWeight]
  have h1 : (0 : ℚ) < 1 + ((s.x - c) / d) ^ 2 := by positivity
  positivity

lemma sum_kernelWeight_pos (c d : ℚ) (s : Sample) (l : List Sample) :
    0 < ((s :: l).map (kernelWeight c d)).sum := by
  induction l generalizing s with
  | nil => simpa using kernelWeight_pos c d s
  | cons u l ih =>
    have h1 := kernelWeight_pos c d s
    have h2 := ih u
    simp only [List.map_cons, List.sum_cons] at h2 ⊢
    linarith

lemma midPairs_ne_nil (wf : Sample → ℚ) (total acc : ℚ) (s : Sample) (l : List Sample) :
    midPairs wf total acc (s :: l) ≠ [] := by
  rw [midPairs]
  exact List.cons_ne_nil _ _

lemma midPairs_snd_mem (wf : Sample → ℚ) (total : ℚ) :
    ∀ (l : List Sample) (acc : ℚ) (p : ℚ × ℚ), p ∈ midPairs wf total acc l →
      ∃ s ∈ l, p.2 = s.y := by
  intro l
  induction l with
  | nil => intro acc p hp; exact absurd hp (List.not_mem_nil p)
  | cons s l ih =>
    intro acc p hp
    rw [midPairs] at hp
    rcases List.mem_cons.1 hp with rfl | hp
    · exact ⟨s, List.mem_cons_self s l, rfl⟩
    · obtain ⟨u, hu, hy⟩ := ih (acc + wf s) p hp
      exact ⟨u, List.mem_cons_of_mem s hu, hy⟩

lemma chain'_midPairs (wf : Sample → ℚ) (total : ℚ) (htotal : 0 < total)
    (hw : ∀ s, 0 < wf s) :
    ∀ (l : List Sample) (acc : ℚ),
      List.Chain' (fun a b => a.1 < b.1) (midPairs wf total acc l) := by
  intro l
  induction l with
  | nil => intro acc; simp [midPairs]
  | cons s l ih =>
    intro acc
    rw [midPairs]
    rcases l with _ | ⟨u, l'⟩
    · simp [midPairs]
    · rw [List.chain'_cons']
      refine ⟨?_, ih (acc + wf s)⟩
      intro b hb
      rw [midPairs] at hb
      simp only [List.head?_cons, Option.mem_def, Option.some.injEq] at hb
      subst hb
      have h1 := hw s
      have h2 := hw u
      exact (div_lt_div_iff_of_pos_right htotal).2 (by linarith)

lemma interpClamped_bound (lo hi : ℚ) :
    ∀ (pts : List (ℚ × ℚ)) (x : ℚ), pts ≠ [] →
      List.Chain' (fun a b => a.1 < b.1) pts →
      (∀ p ∈ pts, lo ≤ p.2 ∧ p.2 ≤ hi) →
      lo ≤ interpClamped pts x ∧ interpClamped pts x ≤ hi := by
  intro pts
  induction pts with
  | nil => intro x h; exact absurd rfl h
  | cons p ps ih =>
    intro x _ hchain hbound
    obtain ⟨x0, y0⟩ := p
    cases ps with
    | nil =>
      have : interpClamped [(x0, y0)] x = y0 := rfl
      rw [this]
      exact hbound (x0, y0) (List.mem_cons_self _ _)
    | cons p1 ps1 =>
      obtain ⟨x1, y1⟩ := p1
      rw [interpClamped_cons_cons]
      by_cases h0 : x ≤ x0
      · rw [if_pos h0]
        exact hbound (x0, y0) (List.mem_cons_self _ _)
      · rw [if_neg h0]
        by_cases h1 : x ≤ x1
        · rw [if_pos h1]
          have hx01 : x0 < x1 := (List.chain'_cons.1 hchain).1
          have hb0 := hbound (x0, y0) (List.mem_cons_self _ _)
          have hb1 := hbound (x1, y1) (List.mem_cons_of_mem _ (List.mem_cons_self _ _))
          have hd0 : (0 : ℚ) ≤ (x - x0) / (x1 - x0) :=
            div_nonneg (by linarith [not_le.1 h0]) (by linarith)
          have hd1 : (x - x0) / (x1 - x0) ≤ 1 :=
            (div_le_one (by linarith)).2 (by linarith)
          constructor
          · nlinarith [mul_nonneg (sub_nonneg.2 hb1.1) hd0,
              mul_nonneg (sub_nonneg.2 hb0.1) (sub_nonneg.2 hd1)]
          · nlinarith [mul_nonneg (sub_nonneg.2 hb1.2) hd0,
              mul_nonneg (sub_nonneg.2 hb0.2) (sub_nonneg.2 hd1)]
        · rw [if_neg h1]
          exact ih x (List.cons_ne_nil _ _) (List.chain'_cons.1 hchain).2
            (fun p hp => hbound p (List.mem_cons_of_mem _ hp))

lemma sortByY_eq_nil {l : List Sample} (h : sortByY l = []) : l = [] := by
  cases l with
  | nil => rfl
  | cons s ls =>
    rw [sortByY] at h
    exfalso
    have : s ∈ insertByY s (sortByY ls) := (mem_insertByY _).2 (Or.inl rfl)
    rw [h] at this
    exact List.not_mem_nil s this

lemma quantileAt_fst_bound (samples : List Sample) (c d q : ℚ) :
    sampleMinY samples ≤ (quantileAt samples c d q).1 ∧
    (quantileAt samples c d q).1 ≤ sampleMaxY samples := by
  rw [quantileAt]
  rcases hsort : sortByY samples with _ | ⟨s, l⟩
  · have hnil := sortByY_eq_nil hsort
    subst hnil
    simp [sampleMinY, sampleMaxY]
  · simp only []
    refine interpClamped_bound (sampleMinY samples) (sampleMaxY samples) _ q
      (midPairs_ne_nil _ _ _ s l) ?_ ?_
    · exact chain'_midPairs _ _ (sum_kernelWeight_pos c d s l)
        (kernelWeight_pos c d) (s :: l) 0
    · intro p hp
      obtain ⟨u, hu, hy⟩ := midPairs_snd_mem _ _ (s :: l) 0 p hp
      have hmem : u ∈ samples := (mem_sortByY samples).1 (hsort ▸ hu)
      rw [hy]
      exact ⟨sampleMinY_le_of_mem hmem, le_sampleMaxY_of_mem hmem⟩

lemma chain'_curvePts (v : ℚ → ℚ) (step : ℚ) (hstep : 0 < step) :
    ∀ (n : ℕ) (c : ℚ), List.Chain' (fun a b => a.1 < b.1) (curvePts v c step n) := by
  intro n
  induction n with
  | zero => intro c; simp [curvePts]
  | succ n ih =>
    intro c
    rw [curvePts, List.chain'_cons']
    refine ⟨?_, ih (c + step)⟩
    intro b hb
    obtain ⟨ps, hps⟩ := curvePts_cons v (c + step) step n
    rw [hps] at hb
    simp only [List.head?_cons, Option.mem_def, Option.some.injEq] at hb
    subst hb
    simpa using hstep

lemma curvePts_mem_val (v : ℚ → ℚ) (step : ℚ) :
    ∀ (n : ℕ) (c : ℚ) (p : ℚ × ℚ), p ∈ curvePts v c step n → ∃ cp, p = (cp, v cp) := by
  intro n
  induction n with
  | zero =>
    intro c p hp
    rw [curvePts] at hp
    rcases List.mem_cons.1 hp with rfl | hp
    · exact ⟨c, rfl⟩
    · exact absurd hp (List.not_mem_nil p)
  | succ n ih =>
    intro c p hp
    rw [curvePts] at hp
    rcases List.mem_cons.1 hp with rfl | hp
    · exact ⟨c, rfl⟩
    · exact ih (c + step) p hp

lemma sampleMinX_le_sampleMaxX (l : List Sample) : sampleMinX l ≤ sampleMaxX l := by
  cases l with
  | nil => exact le_refl 0
  | cons s ls =>
    calc sampleMinX (s :: ls) ≤ s.x := foldl_min_le_init _ _
    _ ≤ sampleMaxX (s :: ls) := le_foldl_max_init _ _

lemma interp_quantileCurve_bound (samples : List Sample) (nwin : ℕ) (fac q v : ℚ)
    (hn : 0 < nwin) :
    sampleMinY samples ≤ interpClamped (quantileCurve samples nwin fac q) v ∧
    interpClamped (quantileCurve samples nwin fac q) v ≤ sampleMaxY samples := by
  rw [quantileCurve]
  by_cases hr : sampleMinX samples = sampleMaxX samples
  · rw [if_pos hr]
    have : interpClamped [(sampleMinX samples,
        (quantileAt samples (sampleMinX samples) 1 q).1)] v =
        (quantileAt samples (sampleMinX samples) 1 q).1 := rfl
    rw [this]
    exact quantileAt_fst_bound samples (sampleMinX samples) 1 q
  · rw [if_neg hr]
    have hlt : sampleMinX samples < sampleMaxX samples :=
      lt_of_le_of_ne (sampleMinX_le_sampleMaxX samples) hr
    have hstep : 0 < windowStep samples nwin := by
      rw [windowStep]
      have hq : (0 : ℚ) < (nwin : ℚ) := by exact_mod_cast hn
      exact div_pos (by linarith) hq
    obtain ⟨ps, hps⟩ := curvePts_cons
      (fun c => (quantileAt samples c (windowDecay samples nwin fac) q).1)
      (sampleMinX samples) (windowStep samples nwin) nwin
    refine interpClamped_bound (sampleMinY samples) (sampleMaxY samples) _ v
      (by rw [hps]; exact List.cons_ne_nil _ _)
      (chain'_curvePts _ _ hstep nwin (sampleMinX samples)) ?_
    intro p hp
    obtain ⟨cp, rfl⟩ := curvePts_mem_val _ _ nwin (sampleMinX samples) p hp
    exact quantileAt_fst_bound samples cp (windowDecay samples nwin fac) q

lemma ratioSamples_false (l : List Sample) : ratioSamples false l = l := rfl

lemma lookupInterp_map (g : Int → ℚ → ℚ) :
    ∀ (ts : List Int) (t : Int), t ∈ ts →
      lookupInterp (ts.map (fun u => (u, g u))) t = g t := by
  intro ts
  induction ts with
  | nil => intro t ht; exact absurd ht (List.not_mem_nil t)
  | cons a ts ih =>
    intro t ht
    rw [List.map_cons, lookupInterp]
    by_cases hat : a = t
    · rw [if_pos hat, hat]
    · rw [if_neg hat]
      rcases List.mem_cons.1 ht with rfl | ht
      · exact absurd rfl hat
      · exact ih t ht

lemma qrwFill_ok_times {f : QrwFiller} {df out : IamDataFrame} {dg : List Int}
    (h : qrwFill f df = .ok (out, dg)) :
    ∀ t ∈ dfTimes df, t ∈ f.interps.map Prod.fst := by
  unfold qrwFill at h
  repeat' split at h
  any_goals exact (Except.noConfusion h)
  rename_i hguard
  intro t ht
  by_contra hmem
  exact hguard ⟨t, ht, hmem⟩

lemma row_time_mem {df : IamDataFrame} {r : Row} (h : r ∈ df.rows) :
    r.time ∈ dfTimes df := by
  rw [dfTimes, mem_unique]
  exact List.mem_map_of_mem (·.time) h

lemma nwindowsOf_none_pos (k : ℕ) : 0 < nwindowsOf none k := by
  simp [nwindowsOf, defaultNwindows]

/-- C3 amended: deriving a variable from itself with the default settings and
filling the same database yields, for every output row, a value within the
span of the original follower values of that time step (between their minimum
and maximum), though not the original values themselves within floating
tolerance. -/
theorem round_trip_within_span (db : IamDataFrame) (X : String) (f : QrwFiller)
    (out : IamDataFrame) (dg : List Int)
    (hd : qrwDeriveDefaults db X [X] = .ok f)
    (hf : qrwFill f db = .ok (out, dg)) :
    ∀ r ∈ out.rows,
      sampleMinY (samplesAt (qrwUseDb db X [X]) X X r.time) ≤ r.value ∧
      r.value ≤ sampleMaxY (samplesAt (qrwUseDb db X [X]) X X r.time) := by
  have hd' : qrwDerive db X [X] (1/2) none 1 false = .ok f := by
    rw [qrwDeriveDefaults] at hd
    exact hd
  have hfb := qrwDerive_ok hd'
  have hout := (qrwFill_ok hf).1
  have htimes := qrwFill_ok_times hf
  intro rr hrr
  rw [hout, qrwFillOut] at hrr
  obtain ⟨r, hr, rfl⟩ := List.mem_map.1 hrr
  have hrdb : r ∈ db.rows := by
    rw [filterVariables] at hr
    exact (List.mem_filter.1 hr).1
  have ht1 : r.time ∈ dfTimes db := row_time_mem hrdb
  have ht2 : r.time ∈ f.interps.map Prod.fst := htimes r.time ht1
  have ht3 : r.time ∈ dfTimes (qrwUseDb db X [X]) := by
    rw [hfb] at ht2
    simpa [qrwBuild, List.map_map, Function.comp] using ht2
  show sampleMinY (samplesAt (qrwUseDb db X [X]) X X r.time) ≤
      qrwApply f r.time r.value ∧
    qrwApply f r.time r.value ≤ sampleMaxY (samplesAt (qrwUseDb db X [X]) X X r.time)
  have happly : qrwApply f r.time r.value =
      interpClamped (quantileCurve (samplesAt (qrwUseDb db X [X]) X X r.time)
        (nwindowsOf none (samplesAt (qrwUseDb db X [X]) X X r.time).length) 1 (1/2))
        r.value := by
    rw [hfb, qrwApply, interpOf]
    simp only [qrwBuild, List.headD_cons, ratioSamples_false, Bool.false_eq_true,
      if_false]
    exact congrFun (lookupInterp_map _ (dfTimes (qrwUseDb db X [X])) r.time ht3) r.value
  rw [happly]
  exact interp_quantileCurve_bound _ _ 1 (1/2) r.value (nwindowsOf_none_pos _)

/-- Witness for the amended C3 on the two-point round-trip database: the
derive and fill succeed and every output value lies within the span of the
original values of its time step. -/
theorem round_trip_within_span_witness :
    qrwDeriveDefaults rtDb "Emissions|CO2" ["Emissions|CO2"] = .ok rtFiller ∧
    qrwFill rtFiller rtDb = .ok (rtFilled.1, rtFilled.2) ∧
    ∀ r ∈ rtFilled.1.rows,
      sampleMinY (samplesAt (qrwUseDb rtDb "Emissions|CO2" ["Emissions|CO2"])
        "Emissions|CO2" "Emissions|CO2" r.time) ≤ r.value ∧
      r.value ≤ sampleMaxY (samplesAt (qrwUseDb rtDb "Emissions|CO2" ["Emissions|CO2"])
        "Emissions|CO2" "Emissions|CO2" r.time) := by
  have h1 : qrwDeriveDefaults rtDb "Emissions|CO2" ["Emissions|CO2"] = .ok rtFiller := by
    rw [rtDerive, rtFiller_eq]
  have h2 : qrwFill rtFiller rtDb = .ok (rtFilled.1, rtFilled.2) := by
    rw [rtFill]
    simp [rtFilled, rtFill, Except.toOption, Option.getD]
  exact ⟨h1, h2, round_trip_within_span rtDb "Emissions|CO2" rtFiller rtFilled.1
    rtFilled.2 h1 h2⟩
